import Mathlib

/-!
Shallow embedding of the Windows platform layer
(`src/interpreter/cling/lib/Utils/PlatformWin.cpp`) of cling:
symbol resolution (`DLSym`), library loading diagnostics (`DLOpen`,
`GetErrorAsString`, `ReportError`), process invocation (`Popen`)
and image classification (`IsDLL`), together with theorems checking
the specification's claims about them.

Machine conventions: addresses and Windows `DWORD`/`HANDLE` values are
modelled as `Nat`, with `0` playing the role of the null pointer /
`NULL` handle.  A loaded module is modelled by its export table.
-/

set_option maxRecDepth 8192

namespace PlatformWin

/-- A loaded module, modelled by its export table: a list of
(symbol name, address) pairs as `GetProcAddress` sees them. -/
abbrev Module : Type := List (String × Nat)

/-- Model of `::GetProcAddress(m, name)`: the exported address of `name`
in module `m`, or `0` (null) when `m` does not export `name` — the
Windows API signals failure with a null return. -/
def getProcAddress (m : Module) (name : String) : Nat :=
  match m.find? (fun p => p.1 == name) with
  | some p => p.2
  | none => 0

/-- First non-null `GetProcAddress` hit while walking a module list in
the given order; `0` when no module yields the symbol.  `DLSym`'s two
search loops are instances of this on reversed slices. -/
def findFirst (ms : List Module) (name : String) : Nat :=
  match ms with
  | [] => 0
  | m :: rest =>
    let addr := getProcAddress m name
    if addr ≠ 0 then addr else findFirst rest name

/-- Initial capacity of the module buffer:
`llvm::SmallVector<HMODULE, 128> Modules; Modules.resize(Modules.capacity());`. -/
def INIT_CAPACITY : Nat := 128

/-- Model of `DLSym` (PlatformWin.cpp, lines 517-557).  `mods` is the
OS's current module list in enumeration (load) order; `enumOk` and
`enum2Ok` tell whether the first and second `EnumProcessModulesEx`
calls succeed.  The first call fills the 128-entry buffer with the
first `min 128 mods.length` modules and reports
`Bytes = mods.length * sizeof(HMODULE)`; the code then shrinks the
buffer when `NumNeeded < NumFirst`, searches the captured entries in
reverse, and if `NumNeeded > NumFirst` re-enumerates into a buffer of
`NumNeeded` entries and scans indices `NumNeeded-1` down to
`NumFirst+1` (the loop condition is `i > NumFirst`).  Returns the
resolved address or `0` (the C++ `nullptr` return). -/
def DLSym (enumOk enum2Ok : Bool) (mods : List Module) (name : String) : Nat :=
  if enumOk then
    let numNeeded := mods.length
    let numFirst := INIT_CAPACITY
    let captured := mods.take INIT_CAPACITY
    -- "In reverse so user loaded modules are searched first"
    let addr := findFirst captured.reverse name
    if addr ≠ 0 then addr
    else if numNeeded > numFirst then
      -- "The number of modules was too small to get them all, so call again"
      if enum2Ok then
        -- for (DWORD i = NumNeeded-1; i > NumFirst; --i)
        findFirst ((mods.drop (numFirst + 1)).reverse) name
      else 0
    else 0
  else 0

/-- An empty export table. -/
def emptyModule : Module := []

/-- A list of 130 modules: the first exports `S` at 7, the last (loaded most
recently, index 129) exports `S` at 9, the rest export nothing. -/
def c1Mods : List Module :=
  [("S", 7)] :: (List.replicate 128 emptyModule ++ [[("S", 9)]])

/-- A list of 130 modules where only the 129th (index 128, the first module
beyond the initial 128-entry buffer) exports `T`, at 55. -/
def c2Mods : List Module :=
  List.replicate 128 emptyModule ++ [[("T", 55)], emptyModule]

/-- If no module in `ms` exports `name`, the walk finds nothing. -/
theorem findFirst_eq_zero (ms : List Module) (name : String)
    (h : ∀ m ∈ ms, getProcAddress m name = 0) : findFirst ms name = 0 := by
  induction ms with
  | nil => rfl
  | cons m rest ih =>
    have hm := h m (List.mem_cons_self m rest)
    simp only [findFirst, hm, ne_eq, not_true_eq_false, if_false, ite_false]
    exact ih fun x hx => h x (List.mem_cons_of_mem m hx)

/-- A caller-supplied `llvm::SmallVectorImpl<char>` buffer: its byte
contents and its current capacity (`capacity_in_bytes()`).  `resize`
never shrinks capacity. -/
structure SVBuf where
  data : List Nat
  cap : Nat
  deriving DecidableEq

/-- Semantics of `SmallVector::resize(n)` on the element list: truncate when
shrinking, pad with value-initialized (zero) elements when growing. -/
def resizeList (l : List Nat) (n : Nat) : List Nat :=
  if n ≤ l.length then l.take n else l ++ List.replicate (n - l.length) 0

/-- Overwrite `buf` starting at `pos` with `src`
(the effect of `ReadFile(h, &Buf[pos], ...)` storing `src`). -/
def writeAt (buf : List Nat) (pos : Nat) (src : List Nat) : List Nat :=
  buf.take pos ++ src ++ buf.drop (pos + src.length)

/-- The read loop of `Popen` (PlatformWin.cpp, lines 659-674).  `sched`
lists the byte count `dwRead` of each successful `ReadFile`; once it is
exhausted the next read returns zero bytes / `ERROR_BROKEN_PIPE` and the
loop breaks.  Each iteration records `Len = Buf.size()`, grows the
buffer by `Chunk`, reads into the new region, trims to `Len + dwRead`
when the read was partial, and the final iteration trims back to `Len`. -/
def readLoop (chunk : Nat) : List Nat → List Nat → List Nat → List Nat
  | [], _stream, buf =>
      let len := buf.length
      resizeList (resizeList buf (len + chunk)) len
  | k :: ks, stream, buf =>
      let len := buf.length
      let grown := resizeList buf (len + chunk)
      let written := writeAt grown len (stream.take k)
      let trimmed := if k < chunk then resizeList written (len + k) else written
      readLoop chunk ks (stream.drop k) trimmed

/-- A read schedule is feasible for chunk size `chunk` and `rem`
pending bytes when every read returns between 1 byte and
`min chunk rem` bytes and the pipe delivers all pending bytes before
signalling end-of-stream. -/
def validSched : List Nat → Nat → Nat → Bool
  | [], _chunk, rem => rem == 0
  | k :: ks, chunk, rem =>
      decide (1 ≤ k) && decide (k ≤ chunk) && decide (k ≤ rem) &&
        validSched ks chunk (rem - k)

/-- Growing a list by `c` zero elements. -/
theorem resizeList_grow (l : List Nat) (c : Nat) :
    resizeList l (l.length + c) = l ++ List.replicate c 0 := by
  unfold resizeList
  rcases Nat.eq_zero_or_pos c with hc | hc
  · subst hc; simp
  · rw [if_neg (by omega)]
    congr 1
    rw [Nat.add_sub_cancel_left]

/-- Growing and then trimming back to the original length is the
identity: this is the final `Buf.resize(Len)` of the read loop. -/
theorem resizeList_roundtrip (l : List Nat) (c : Nat) :
    resizeList (resizeList l (l.length + c)) l.length = l := by
  rw [resizeList_grow]
  unfold resizeList
  rw [if_pos (by simp)]
  exact List.take_left l _

/-- One read-loop iteration appends exactly the bytes read: with
`1 ≤ k ≤ chunk` and `k` bytes available, the grow / write / trim dance
leaves `buf ++ stream.take k`. -/
theorem readLoop_step (chunk k : Nat) (stream buf : List Nat)
    (hk1 : 1 ≤ k) (hkc : k ≤ chunk) (hkr : k ≤ stream.length) :
    (if k < chunk
      then resizeList (writeAt (resizeList buf (buf.length + chunk))
             buf.length (stream.take k)) (buf.length + k)
      else writeAt (resizeList buf (buf.length + chunk))
             buf.length (stream.take k)) = buf ++ stream.take k := by
  have hlen : (stream.take k).length = k := by
    rw [List.length_take]; omega
  have hgrow := resizeList_grow buf chunk
  have hwrite : writeAt (buf ++ List.replicate chunk 0) buf.length
      (stream.take k) = buf ++ stream.take k ++ List.replicate (chunk - k) 0 := by
    unfold writeAt
    rw [List.take_left, hlen]
    have hdrop : (buf ++ List.replicate chunk 0).drop (buf.length + k)
        = List.replicate (chunk - k) 0 := by
      rw [List.drop_append_eq_append_drop]
      rw [List.drop_eq_nil_of_le (by omega), List.nil_append]
      rw [List.drop_replicate]
      congr 1
      omega
    rw [hdrop]
  by_cases hlt : k < chunk
  · rw [if_pos hlt, hgrow, hwrite]
    unfold resizeList
    rw [if_pos (by
      simp only [List.length_append, List.length_replicate, hlen]; omega)]
    rw [List.append_assoc] at *
    rw [← List.append_assoc, List.take_append_eq_append_take]
    rw [List.take_of_length_le (by simp [hlen])]
    simp [hlen]
  · rw [if_neg hlt, hgrow, hwrite]
    have : chunk - k = 0 := by omega
    simp [this]

/-- The read loop captures exactly the pending stream: a feasible
schedule appends the whole of `stream` to `buf`, with no truncation
and no duplication. -/
theorem readLoop_captures (chunk : Nat) (sched stream buf : List Nat)
    (h : validSched sched chunk stream.length = true) :
    readLoop chunk sched stream buf = buf ++ stream := by
  induction sched generalizing stream buf with
  | nil =>
    simp only [validSched, beq_iff_eq] at h
    have : stream = [] := List.eq_nil_of_length_eq_zero h
    subst this
    simp only [readLoop, List.append_nil]
    exact resizeList_roundtrip buf chunk
  | cons k ks ih =>
    simp only [validSched, Bool.and_eq_true, decide_eq_true_eq] at h
    obtain ⟨⟨⟨hk1, hkc⟩, hkr⟩, hrest⟩ := h
    simp only [readLoop]
    rw [readLoop_step chunk k stream buf hk1 hkc hkr]
    rw [ih (stream.drop k) (buf ++ stream.take k)
      (by rw [List.length_drop]; exact hrest)]
    rw [List.append_assoc, List.take_append_drop]

/-- Model of `Popen` (PlatformWin.cpp, lines 594-685).  `pipeOk`,
`dupEOk`, `dupROk`, `spawnOk` tell whether `CreatePipe`, the
`DuplicateHandle` for the stderr write end, the `DuplicateHandle` for
the parent read end, and `CreateProcessA` succeed; `out` is the byte
stream the child writes into the pipe and `sched` the sizes of the
successful `ReadFile` calls; `prior` is the caller's buffer on entry
and `RdE` the capture-stderr flag.  The function starts with
`Buf.resize(0)`, returns `false` from the early failure branches,
and otherwise runs the read loop with
`Chunk = Buf.capacity_in_bytes()` and returns `!Buf.empty()`.
Result: the final buffer contents and the returned boolean. -/
def Popen (pipeOk dupEOk dupROk spawnOk : Bool) (out sched : List Nat)
    (prior : SVBuf) (RdE : Bool) : List Nat × Bool :=
  let buf := resizeList prior.data 0
  if !pipeOk then (buf, false)
  else if RdE && !dupEOk then (buf, false)
  else if !dupROk then (buf, false)
  else if spawnOk then
    let chunk := prior.cap
    let fin := readLoop chunk sched out buf
    (fin, !fin.isEmpty)
  else (buf, !buf.isEmpty)

/-- Calling `Buf.resize(0)` empties the element list. -/
theorem resizeList_zero (l : List Nat) : resizeList l 0 = [] := by
  simp [resizeList]

/-- The OS handles `Popen` acquires: the temporary inheritable read
end, the pipe write end, its stderr duplicate, the parent read end,
and the child process and thread handles. -/
inductive PHandle
  | readTmp | wEnd | eEnd | rEnd | procH | threadH
  deriving DecidableEq

/-- Observable events of one `Popen` run: acquiring a handle,
releasing (closing) a handle, and issuing a `ReadFile` on the pipe. -/
inductive PEvent
  | acq : PHandle → PEvent
  | rel : PHandle → PEvent
  | readEv : PEvent
  deriving DecidableEq

/-- The event trace of `Popen` (PlatformWin.cpp, lines 594-685), in
source order, for each combination of OS-call outcomes.  `CreatePipe`
acquires the temporary read end and the write end; each successful
`DuplicateHandle` acquires its duplicate; a successful
`CreateProcessA` acquires the process and thread handles; every
`CloseHandle` releases; the read loop performs `n + 1` `ReadFile`
calls (`n` successful ones plus the terminating one). -/
def popenTrace (pipeOk dupEOk dupROk spawnOk RdE : Bool) (n : Nat) :
    List PEvent :=
  if !pipeOk then []
  else if RdE && !dupEOk then
    [.acq .readTmp, .acq .wEnd, .rel .readTmp, .rel .wEnd]
  else
    let pre := [PEvent.acq .readTmp, PEvent.acq .wEnd]
      ++ (if RdE then [PEvent.acq .eEnd] else [])
    if !dupROk then
      pre ++ [PEvent.rel .readTmp, PEvent.rel .wEnd]
        ++ (if RdE then [PEvent.rel .eEnd] else [])
    else
      let pre2 := pre ++ [PEvent.acq .rEnd, PEvent.rel .readTmp]
      if spawnOk then
        pre2 ++ [PEvent.acq .procH, PEvent.acq .threadH, PEvent.rel .wEnd]
          ++ (if RdE then [PEvent.rel .eEnd] else [])
          ++ List.replicate (n + 1) PEvent.readEv
          ++ [PEvent.rel .procH, PEvent.rel .threadH, PEvent.rel .rEnd]
      else
        pre2 ++ [PEvent.rel .wEnd] ++ (if RdE then [PEvent.rel .eEnd] else [])
          ++ [PEvent.rel .rEnd]

/-- Scans a trace: `true` iff a `ReadFile` event occurs strictly
before the first release of handle `h`. -/
def readBeforeRel (h : PHandle) : List PEvent → Bool
  | [] => false
  | PEvent.readEv :: _ => true
  | e :: es => if e = PEvent.rel h then false else readBeforeRel h es

/-- Occurrence count of an element in a list. -/
def countE {α : Type} [DecidableEq α] (e : α) : List α → Nat
  | [] => 0
  | x :: xs => (if x = e then 1 else 0) + countE e xs

/-- The count `countE` distributes over append. -/
theorem countE_append {α : Type} [DecidableEq α] (e : α) (l1 l2 : List α) :
    countE e (l1 ++ l2) = countE e l1 + countE e l2 := by
  induction l1 with
  | nil => simp [countE]
  | cons x xs ih => simp [countE, ih]; omega

/-- A replicated foreign element contributes no occurrences. -/
theorem countE_replicate_ne {α : Type} [DecidableEq α] (e x : α)
    (h : x ≠ e) (n : Nat) : countE e (List.replicate n x) = 0 := by
  induction n with
  | zero => rfl
  | succ k ih => simp [List.replicate_succ, countE, h, ih]

/-- The OS handles `IsDLL` acquires: file handle, file mapping, and
mapped view. -/
inductive IHandle
  | fileH | mapH | viewH
  deriving DecidableEq

/-- Acquire/release events of one `IsDLL` run. -/
inductive IEvent
  | acq : IHandle → IEvent
  | rel : IHandle → IEvent
  deriving DecidableEq

/-- The resource trace of `IsDLL` (PlatformWin.cpp, lines 439-476).
When `CreateFileMapping` fails it returns `NULL`; the source's test
against `INVALID_HANDLE_VALUE` misses that, `MapViewOfFile(NULL)` then
fails, and that error branch calls `CloseHandle` on the `NULL` mapping
(no resource, so no release event) and on the file handle. -/
def isDLLTrace (openOk mapOk viewOk : Bool) : List IEvent :=
  if !openOk then []
  else if mapOk then
    [IEvent.acq .fileH, IEvent.acq .mapH] ++
      (if viewOk then
        [IEvent.acq .viewH, IEvent.rel .viewH, IEvent.rel .mapH,
         IEvent.rel .fileH]
       else [IEvent.rel .mapH, IEvent.rel .fileH])
  else
    [IEvent.acq .fileH, IEvent.rel .fileH]

/-- Model of `llvm::StringRef::rtrim()`: drop trailing whitespace. -/
def rtrimStr (s : String) : String :=
  ⟨(s.data.reverse.dropWhile Char.isWhitespace).reverse⟩

/-- Model of `GetErrorAsString` (PlatformWin.cpp, lines 49-65) in the
case where `FormatMessage` yields a message: the optional `Prefix` is
rendered as `Prefix ++ ": returned " ++ Err ++ " "`, the OS-provided
message text `osMsg Err` is appended, and the result is
right-trimmed. -/
def GetErrorAsString (osMsg : Nat → String) (err : Nat)
    (pfx : Option String) : String :=
  let pre := match pfx with
    | some p => p ++ ": returned " ++ toString err ++ " "
    | none => ""
  rtrimStr (pre ++ osMsg err)

/-- Model of `ReportError` (PlatformWin.cpp, lines 67-71): it builds
`Message` via `GetErrorAsString` and then writes only the numeric code
and a newline to the error stream (`llvm::errs() << Err << '\n';`);
the result is the text that reaches the log. -/
def ReportErrorLog (osMsg : Nat → String) (err : Nat)
    (pfx : Option String) : String :=
  let _message := GetErrorAsString osMsg err pfx
  toString err ++ "\n"

/-- Model of the error output of `DLOpen` (PlatformWin.cpp, lines
509-515): on `LoadLibraryA` failure with a nonzero `GetLastError`, the
caller's error string is set via `GetLastErrorAsString`, i.e. to
`GetErrorAsString` of the OS code with the `"LoadLibrary"` prefix. -/
def DLOpenErr (osMsg : Nat → String) (loadOk : Bool)
    (lastErr : Nat) : Option String :=
  if loadOk then none
  else if lastErr ≠ 0 then
    some (GetErrorAsString osMsg lastErr (some "LoadLibrary"))
  else none

/-- The `IMAGE_DOS_SIGNATURE` constant: the 16-bit magic 0x5A4D (`MZ`). -/
def IMAGE_DOS_SIGNATURE : Nat := 0x5A4D

/-- The `IMAGE_NT_SIGNATURE` constant: the 32-bit magic 0x00004550. -/
def IMAGE_NT_SIGNATURE : Nat := 0x4550

/-- The `IMAGE_FILE_DLL` characteristics flag. -/
def IMAGE_FILE_DLL : Nat := 0x2000

/-- Little-endian 16-bit read from a byte list (bytes beyond the
mapped view read as 0). -/
def read16 (bs : List Nat) (off : Nat) : Nat :=
  bs.getD off 0 + 256 * bs.getD (off + 1) 0

/-- Little-endian 32-bit read from a byte list. -/
def read32 (bs : List Nat) (off : Nat) : Nat :=
  read16 bs off + 65536 * read16 bs (off + 2)

/-- A path's backing file: nonexistent, or existing with the given
byte contents. -/
inductive FileImage
  | missing
  | content (bytes : List Nat)

/-- Model of `IsDLL` (PlatformWin.cpp, lines 439-476).  A missing file
makes `CreateFileA` return `INVALID_HANDLE_VALUE` and the function
return `false`.  On a zero-length file `CreateFileMapping` fails
returning `NULL`; the source's `INVALID_HANDLE_VALUE` test misses
that, but `MapViewOfFile(NULL)` then fails and the function returns
`false`.  Otherwise the mapped view is the file's bytes: `isDLL`
becomes true iff the DOS magic at offset 0 matches, the NT signature
at `e_lfanew` (the 32-bit field at offset 0x3C) matches, and the
`Characteristics` field (16 bits at `e_lfanew + 22`) has the
`IMAGE_FILE_DLL` bit set. -/
def IsDLL (f : FileImage) : Bool :=
  match f with
  | FileImage.missing => false
  | FileImage.content bs =>
    if bs.length = 0 then false
    else
      if read16 bs 0 = IMAGE_DOS_SIGNATURE then
        let lfanew := read32 bs 60
        if read32 bs lfanew = IMAGE_NT_SIGNATURE
            && (read16 bs (lfanew + 22)).land IMAGE_FILE_DLL != 0
        then true else false
      else false

end PlatformWin

namespace PlatformWin

/-- C1: `DLSym` does not implement last-loaded-wins once the module
count exceeds the initial 128-entry buffer: with 130 modules where
module 0 exports `S` at 7 and module 129 (loaded last) exports `S`
at 9, `DLSym` returns 7 — the first capture (modules 0..127) is
searched, and a hit there returns before the later-loaded modules are
ever enumerated.  The claim requires 9 (the last-loaded exporter). -/
theorem c1_dlsym_not_last_loaded_wins :
    DLSym true true c1Mods "S" = 7 ∧
    getProcAddress (c1Mods.getD 129 emptyModule) "S" = 9 := by
  constructor <;> rfl

/-- C2: not every module reported by the OS in the successful capture
is searched: the retry loop runs `i` from `NumNeeded-1` down to
`NumFirst+1`, skipping index `NumFirst` (= 128).  With 130 modules
where only module index 128 exports `T` at 55, `DLSym` returns 0
(not found) even though a search of every captured module finds 55. -/
theorem c2_dlsym_skips_module_at_numfirst :
    DLSym true true c2Mods "T" = 0 ∧
    getProcAddress (c2Mods.getD 128 emptyModule) "T" = 55 ∧
    findFirst c2Mods.reverse "T" = 55 := by
  refine ⟨?_, ?_, ?_⟩ <;> rfl

/-- C6 (counterexample): the not-found result of `DLSym` is the null
address `0` — the same value `GetProcAddress` yields for a module that
exports the symbol at address zero — so the absence indicator is
exactly a null sentinel conflatable with a valid zero address,
contradicting the claim's "never a null/sentinel" part. -/
theorem c6_not_found_is_null_sentinel :
    DLSym true true [] "S" = 0 ∧ DLSym true true [[("S", 0)]] "S" = 0 :=
  ⟨rfl, rfl⟩

/-- C6 (amended): for every symbol name exported by no loaded module,
`DLSym` returns the null address `0` (the C++ `nullptr`), whatever the
number of mapped modules and whether or not the enumeration calls
succeed; this null return is the absence indicator. -/
theorem c6_dlsym_absent_returns_null (e1 e2 : Bool) (mods : List Module)
    (name : String) (h : ∀ m ∈ mods, getProcAddress m name = 0) :
    DLSym e1 e2 mods name = 0 := by
  have h1 : findFirst (mods.take INIT_CAPACITY).reverse name = 0 :=
    findFirst_eq_zero _ _ fun m hm =>
      h m (List.take_subset _ _ (List.mem_reverse.mp hm))
  have h2 : findFirst ((mods.drop (INIT_CAPACITY + 1)).reverse) name = 0 :=
    findFirst_eq_zero _ _ fun m hm =>
      h m (List.drop_subset _ _ (List.mem_reverse.mp hm))
  simp [DLSym, h1, h2]

/-- C6 (witness): a concrete module list exporting only `X`, queried
for `S`, resolves to the null address. -/
theorem c6_dlsym_absent_returns_null_witness :
    DLSym true true [[("X", 1)]] "S" = 0 :=
  c6_dlsym_absent_returns_null true true [[("X", 1)]] "S" (by decide)

/-- C3: when the spawn succeeds and the child's output is larger than
one growth chunk, `Popen` returns exactly the bytes the child wrote —
no truncation, no duplication — and the buffer is trimmed to exactly
the bytes received, for any feasible sequence of partial reads. -/
theorem c3_popen_exact_capture (out sched : List Nat) (prior : SVBuf)
    (RdE : Bool) (hs : validSched sched prior.cap out.length = true)
    (hbig : prior.cap < out.length) :
    Popen true true true true out sched prior RdE = (out, true) := by
  have hcap : readLoop prior.cap sched out [] = out := by
    simpa using readLoop_captures prior.cap sched out [] hs
  cases out with
  | nil => simp at hbig
  | cons b bs => simp [Popen, resizeList_zero, hcap]

/-- C3 (witness): a 5-byte output with chunk size 2, read in parts of
2, 2 and 1 bytes, is returned exactly. -/
theorem c3_popen_exact_capture_witness :
    Popen true true true true [1, 2, 3, 4, 5] [2, 2, 1] ⟨[], 2⟩ false
      = ([1, 2, 3, 4, 5], true) :=
  c3_popen_exact_capture [1, 2, 3, 4, 5] [2, 2, 1] ⟨[], 2⟩ false
    (by decide) (by decide)

/-- C4: the boolean `Popen` returns is true iff the captured byte
sequence is non-empty; a child producing no output yields
`([], false)`; and failure of `CreatePipe`, of either
`DuplicateHandle`, or of `CreateProcessA` degrades to `([], false)`
rather than any fatal outcome. -/
theorem c4_popen_bool_iff_nonempty (pipeOk dupEOk dupROk spawnOk : Bool)
    (out sched : List Nat) (prior : SVBuf) (RdE : Bool)
    (hs : validSched sched prior.cap out.length = true) :
    ((Popen pipeOk dupEOk dupROk spawnOk out sched prior RdE).2
      = !(Popen pipeOk dupEOk dupROk spawnOk out sched prior RdE).1.isEmpty) ∧
    (out = [] →
      Popen pipeOk dupEOk dupROk spawnOk out sched prior RdE = ([], false)) ∧
    (pipeOk = false ∨ (RdE = true ∧ dupEOk = false) ∨ dupROk = false ∨
        spawnOk = false →
      Popen pipeOk dupEOk dupROk spawnOk out sched prior RdE = ([], false)) := by
  refine ⟨?_, ?_, ?_⟩
  · cases pipeOk <;> cases dupEOk <;> cases dupROk <;> cases spawnOk <;>
      cases RdE <;> simp [Popen, resizeList_zero]
  · intro hout
    subst hout
    have hfin : readLoop prior.cap sched [] [] = [] := by
      simpa using readLoop_captures prior.cap sched [] [] hs
    cases pipeOk <;> cases dupEOk <;> cases dupROk <;> cases spawnOk <;>
      cases RdE <;> simp [Popen, resizeList_zero, hfin]
  · intro hfail
    cases pipeOk <;> cases dupEOk <;> cases dupROk <;> cases spawnOk <;>
      cases RdE <;> simp_all [Popen, resizeList_zero]

/-- C4 (witness): with every OS call succeeding and a child writing
nothing, `Popen` returns `([], false)`, the boolean matches emptiness,
and the failure clause holds vacuously. -/
theorem c4_popen_bool_iff_nonempty_witness :
    ((Popen true true true true [] [] ⟨[7], 4⟩ false).2
      = !(Popen true true true true [] [] ⟨[7], 4⟩ false).1.isEmpty) ∧
    ([] = ([] : List Nat) →
      Popen true true true true [] [] ⟨[7], 4⟩ false = ([], false)) ∧
    (true = false ∨ (false = true ∧ true = false) ∨ true = false ∨
        true = false →
      Popen true true true true [] [] ⟨[7], 4⟩ false = ([], false)) :=
  c4_popen_bool_iff_nonempty true true true true [] [] ⟨[7], 4⟩ false
    (by decide)

/-- C10: `Popen` clears the caller's buffer on entry, so two calls that
differ only in the buffer's prior contents (and hence possibly in its
capacity and read partitioning) return the same byte sequence and the
same boolean, whatever the failure pattern of the OS calls. -/
theorem c10_popen_independent_of_prior (pipeOk dupEOk dupROk spawnOk : Bool)
    (out : List Nat) (RdE : Bool) (p1 p2 : SVBuf) (s1 s2 : List Nat)
    (h1 : validSched s1 p1.cap out.length = true)
    (h2 : validSched s2 p2.cap out.length = true) :
    Popen pipeOk dupEOk dupROk spawnOk out s1 p1 RdE
      = Popen pipeOk dupEOk dupROk spawnOk out s2 p2 RdE := by
  have hf1 : readLoop p1.cap s1 out [] = out := by
    simpa using readLoop_captures p1.cap s1 out [] h1
  have hf2 : readLoop p2.cap s2 out [] = out := by
    simpa using readLoop_captures p2.cap s2 out [] h2
  cases pipeOk <;> cases dupEOk <;> cases dupROk <;> cases spawnOk <;>
    cases RdE <;> simp [Popen, resizeList_zero, hf1, hf2]

/-- C10 (witness): a stale 3-byte buffer of capacity 3 and a fresh
buffer of capacity 2 produce identical results for the same child
output. -/
theorem c10_popen_independent_of_prior_witness :
    Popen true true true true [1, 2, 3, 4] [3, 1] ⟨[9, 9, 9], 3⟩ true
      = Popen true true true true [1, 2, 3, 4] [2, 2] ⟨[], 2⟩ true :=
  c10_popen_independent_of_prior true true true true [1, 2, 3, 4] true
    ⟨[9, 9, 9], 3⟩ ⟨[], 2⟩ [3, 1] [2, 2] (by decide) (by decide)

/-- C5: on every `Popen` path, whatever the outcome of each OS call
and however many reads occur, no `ReadFile` happens before the
parent's duplicate of the pipe write end is closed, and (when stderr
is captured) none happens before the stderr duplicate is closed. -/
theorem c5_write_ends_closed_before_read
    (pipeOk dupEOk dupROk spawnOk RdE : Bool) (n : Nat) :
    readBeforeRel .wEnd (popenTrace pipeOk dupEOk dupROk spawnOk RdE n)
      = false ∧
    readBeforeRel .eEnd (popenTrace pipeOk dupEOk dupROk spawnOk true n)
      = false := by
  cases pipeOk <;> cases dupEOk <;> cases dupROk <;> cases spawnOk <;>
    cases RdE <;> simp [popenTrace, readBeforeRel]

/-- C7: every OS resource acquired on any path of `Popen` (pipe ends,
duplicated handles, process and thread handles) and of `IsDLL` (file
handle, mapping, view) is released on that path: in every trace each
handle's acquire count equals its release count. -/
theorem c7_no_resource_leak
    (pipeOk dupEOk dupROk spawnOk RdE : Bool) (n : Nat) (h : PHandle)
    (openOk mapOk viewOk : Bool) (hi : IHandle) :
    countE (PEvent.acq h) (popenTrace pipeOk dupEOk dupROk spawnOk RdE n)
      = countE (PEvent.rel h)
          (popenTrace pipeOk dupEOk dupROk spawnOk RdE n) ∧
    countE (IEvent.acq hi) (isDLLTrace openOk mapOk viewOk)
      = countE (IEvent.rel hi) (isDLLTrace openOk mapOk viewOk) := by
  have hacq : ∀ (x : PHandle) (m : Nat),
      countE (PEvent.acq x) (List.replicate m PEvent.readEv) = 0 :=
    fun x m => countE_replicate_ne _ _ (fun hx => PEvent.noConfusion hx) m
  have hrel : ∀ (x : PHandle) (m : Nat),
      countE (PEvent.rel x) (List.replicate m PEvent.readEv) = 0 :=
    fun x m => countE_replicate_ne _ _ (fun hx => PEvent.noConfusion hx) m
  constructor
  · cases pipeOk <;> cases dupEOk <;> cases dupROk <;> cases spawnOk <;>
      cases RdE <;> cases h <;>
      simp [popenTrace, countE_append, countE, hacq, hrel]
  · cases openOk <;> cases mapOk <;> cases viewOk <;> cases hi <;>
      simp [isDLLTrace, countE_append, countE]

/-- C8: the text `ReportError` sends to the log is the numeric code
plus a newline, independent of the OS-provided message — it computes
the full message via `GetErrorAsString` and then drops it — so logged
diagnostics do not carry the OS text; `DLOpen`'s error output, in
contrast, does carry it. -/
theorem c8_report_error_drops_os_text :
    (∀ (f g : Nat → String) (e : Nat) (p : Option String),
      ReportErrorLog f e p = ReportErrorLog g e p) ∧
    ReportErrorLog (fun _ => "The system cannot find the file specified.")
      2 (some "CreateFile") = "2\n" ∧
    GetErrorAsString (fun _ => "The system cannot find the file specified.")
      2 (some "CreateFile")
      = "CreateFile: returned 2 The system cannot find the file specified." ∧
    DLOpenErr (fun _ => "The specified module could not be found.")
      false 126
      = some
        "LoadLibrary: returned 126 The specified module could not be found." :=
  ⟨fun _ _ _ _ => rfl, rfl, rfl, rfl⟩

/-- C9: `IsDLL` is a total boolean classification and returns `false`
for a nonexistent path, for a zero-length file, and for any file whose
DOS magic number does not match. -/
theorem c9_isdll_false_on_bad_inputs (bs : List Nat)
    (hmagic : read16 bs 0 ≠ IMAGE_DOS_SIGNATURE) :
    IsDLL FileImage.missing = false ∧
    IsDLL (FileImage.content []) = false ∧
    IsDLL (FileImage.content bs) = false := by
  refine ⟨rfl, rfl, ?_⟩
  simp [IsDLL, hmagic]

/-- C9 (witness): the three-byte file `01 02 03` has a corrupted DOS
magic and classifies as `false`, as do the missing and empty files. -/
theorem c9_isdll_false_on_bad_inputs_witness :
    IsDLL FileImage.missing = false ∧
    IsDLL (FileImage.content []) = false ∧
    IsDLL (FileImage.content [1, 2, 3]) = false :=
  c9_isdll_false_on_bad_inputs [1, 2, 3] (by decide)

end PlatformWin
